import Mathlib

set_option maxRecDepth 8000

namespace QtrlSpec

/-- Number field for the script's operator matrices: rational numbers extended
with the imaginary unit and the square root of two.  A value re + im * i +
rs * sqrt 2 + irs * i * sqrt 2 is stored by its four rational coordinates,
which makes equality decidable; since 1, i, sqrt 2 and i * sqrt 2 are linearly
independent over the rationals, equalities and disequalities proved here hold
of the complex matrices the script builds. -/
structure K4 where
  re : ℚ
  im : ℚ
  rs : ℚ
  irs : ℚ
deriving DecidableEq, Repr

def K4.add (x y : K4) : K4 := ⟨x.re + y.re, x.im + y.im, x.rs + y.rs, x.irs + y.irs⟩

def K4.neg (x : K4) : K4 := ⟨-x.re, -x.im, -x.rs, -x.irs⟩

/-- Multiplication in K4, using i * i = -1 and (sqrt 2) * (sqrt 2) = 2. -/
def K4.mul (x y : K4) : K4 :=
  ⟨x.re * y.re - x.im * y.im + 2 * (x.rs * y.rs) - 2 * (x.irs * y.irs),
   x.re * y.im + x.im * y.re + 2 * (x.rs * y.irs) + 2 * (x.irs * y.rs),
   x.re * y.rs + x.rs * y.re - x.im * y.irs - x.irs * y.im,
   x.re * y.irs + x.irs * y.re + x.im * y.rs + x.rs * y.im⟩

instance : Add K4 := ⟨K4.add⟩

instance : Neg K4 := ⟨K4.neg⟩

instance : Mul K4 := ⟨K4.mul⟩

instance : Zero K4 := ⟨⟨0, 0, 0, 0⟩⟩

instance : One K4 := ⟨⟨1, 0, 0, 0⟩⟩

instance : Sub K4 := ⟨fun x y => x + K4.neg y⟩

/-- The imaginary unit of K4 (Python's 1j). -/
def K4.iu : K4 := ⟨0, 1, 0, 0⟩

def K4.ofRat (q : ℚ) : K4 := ⟨q, 0, 0, 0⟩

/-- One-qubit operators: 2 x 2 matrices over K4. -/
abbrev Mat2 := Fin 2 → Fin 2 → K4

/-- Two-qubit (superoperator) matrices: the four-dimensional index space is
represented as pairs of binary indices, matching the Kronecker structure. -/
abbrev Mat4 := Fin 2 × Fin 2 → Fin 2 × Fin 2 → K4

/-- The 2 x 2 matrix with rows (a, b) and (c, d). -/
def m2 (a b c d : K4) : Mat2 := fun i j =>
  if i.val = 0 then (if j.val = 0 then a else b)
  else (if j.val = 0 then c else d)

/-- Matrix transpose (the script's .trans()). -/
def mT (A : Mat2) : Mat2 := fun i j => A j i

/-- Kronecker (tensor) product of two one-qubit operators (qutip's tensor). -/
def tensor (A B : Mat2) : Mat4 := fun i j => A i.1 j.1 * B i.2 j.2

def msmul (k : K4) (A : Mat4) : Mat4 := fun i j => k * A i j

def madd (A B : Mat4) : Mat4 := fun i j => A i j + B i j

def msub (A B : Mat4) : Mat4 := fun i j => A i j - B i j

def m2smul (k : K4) (A : Mat2) : Mat2 := fun i j => k * A i j

/-- Pauli X (src line 47). -/
def Sx : Mat2 := m2 0 1 1 0

/-- Pauli Y (src line 48). -/
def Sy : Mat2 := m2 0 (K4.neg K4.iu) K4.iu 0

/-- Pauli Z (src line 49). -/
def Sz : Mat2 := m2 1 0 0 (-1)

/-- One-qubit identity (src line 50). -/
def Si : Mat2 := m2 1 0 0 1

/-- Raising operator Sd (src lines 52-53). -/
def Sd : Mat2 := m2 0 1 0 0

/-- Lowering operator Sm (src lines 54-55). -/
def Sm : Mat2 := m2 0 0 1 0

/-- Projector Sd_m (src lines 56-57). -/
def Sd_m : Mat2 := m2 1 0 0 0

/-- Projector Sm_d (src lines 58-59). -/
def Sm_d : Mat2 := m2 0 0 0 1

/-- Amplitude-damping rate (src line 63). -/
def gamma : ℚ := 1 / 10

/-- Amplitude-damping drift generator (src lines 64-65):
gamma * (2 * tensor(Sm, Sd.trans()) - (tensor(Sd_m, Si) + tensor(Si, Sd_m.trans()))). -/
def L0_Ad : Mat4 :=
  msmul (K4.ofRat gamma)
    (msub (msmul (K4.ofRat 2) (tensor Sm (mT Sd)))
      (madd (tensor Sd_m Si) (tensor Si (mT Sd_m))))

/-- Sigma X control generator (src line 67). -/
def LC_x : Mat4 := msmul (K4.neg K4.iu) (msub (tensor Sx Si) (tensor Si Sx))

/-- Sigma Y control generator (src line 69). -/
def LC_y : Mat4 := msmul (K4.neg K4.iu) (msub (tensor Sy Si) (tensor Si (mT Sy)))

/-- Sigma Z control generator (src line 71). -/
def LC_z : Mat4 := msmul (K4.neg K4.iu) (msub (tensor Sz Si) (tensor Si Sz))

/-- Drift (src line 74). -/
def drift : Mat4 := L0_Ad

/-- The control list supplied to the optimizer (src line 76). -/
def ctrls : List Mat4 := [LC_z, LC_x]

/-- Number of controls (src line 78): the length of the control list. -/
def n_ctrls : ℕ := ctrls.length

/-- Initial operator, identity(4) (src line 80). -/
def initial : Mat4 := fun i j => if i = j then 1 else 0

/-- Modelled from the spec: the external library's single-qubit Hadamard
transform (hadamard_transform(1), missing from src), the matrix
(1 / sqrt 2) * [[1, 1], [1, -1]]; 1 / sqrt 2 is represented as (sqrt 2) / 2. -/
def had_gate : Mat2 := m2smul ⟨0, 0, 1 / 2, 0⟩ (m2 1 1 1 (-1))

/-- Target operator (src line 84): tensor(had_gate, had_gate). -/
def target_DP : Mat4 := tensor had_gate had_gate

/-- Entrywise value of the two-qubit Hadamard: entry ((a, c), (b, d)) of
H tensor H is (1/2) * (-1)^(a*b + c*d). -/
def hadSign (a b : Fin 2) : ℚ := if a = 1 ∧ b = 1 then -1 else 1

/-- The explicit rational matrix that H tensor H equals. -/
def targetHH : Mat4 := fun i j =>
  K4.ofRat (hadSign i.1 j.1 * hadSign i.2 j.2 / 2)

/-- Example name (src line 42). -/
def example_name : String := "Lindblad"

/-- Logging level (src line 43): the library's INFO level, numerically 20. -/
def log_level : ℕ := 20

/-- The INFO threshold compared against in src line 145. -/
def logINFO : ℕ := 20

/-- Number of time slots (src line 88). -/
def n_ts : ℕ := 10

/-- Total evolution time (src line 90). -/
def evo_time : ℕ := 5

/-- Fidelity error target (src line 94). -/
def fid_err_targ : ℚ := 1 / 1000

/-- Maximum iterations (src line 96). -/
def max_iter : ℕ := 500

/-- Maximum wall time in seconds (src line 98). -/
def max_wall_time : ℕ := 30

/-- Minimum gradient (src line 101). -/
def min_grad : ℚ := 1 / 10 ^ 20

/-- Gradient-check flag (src line 103). -/
def check_gradient : Bool := true

/-- Initial pulse type (src line 107). -/
def p_type : String := "LIN"

/-- Output file extension (src line 111): the format string
{example_name}_n_ts{n_ts}_ptype{p_type}.txt applied to the configured
parameters, written as the concatenation the format call produces. -/
def f_ext : String :=
  example_name ++ "_n_ts" ++ toString n_ts ++ "_ptype" ++ p_type ++ ".txt"

/-- Name of the file the initial amplitudes are saved to (src line 143):
"ctrl_amps_initial_" + f_ext. -/
def pulsefile : String := "ctrl_amps_initial_" ++ f_ext

/-- Keyword configuration passed to the optimizer factory (src lines 127-132). -/
structure OptimConfig where
  fidErrTarg : ℚ
  minGrad : ℚ
  maxIter : ℕ
  maxWallTime : ℕ
  initPulseType : String
  logLevel : ℕ
  genStats : Bool
deriving DecidableEq, Repr

/-- The keyword configuration the script passes (src lines 129-132). -/
def optimCfg : OptimConfig :=
  ⟨fid_err_targ, min_grad, max_iter, max_wall_time, p_type, log_level, true⟩

/-- A linear congruential step, standing in for the ambient pseudo-random
state of the process. -/
def lcg (s : ℕ) : ℕ := (1103515245 * s + 12345) % 2 ^ 31

/-- The n-th value of the pseudo-random stream started from a seed. -/
def randStream (seed : ℕ) : ℕ → ℕ
  | 0 => lcg seed
  | n + 1 => lcg (randStream seed n)

/-- Modelled from the spec: the external pulse generator's gen_pulse, missing
from src.  Each call produces a sequence whose length is the number of time
slots, shaped by the selector: LIN is a linear ramp, which does not consult
the random state; RND draws from the ambient pseudo-random stream, the call
index advancing the stream; ZERO and the remaining selectors are modelled as
the all-zero pulse. -/
def genPulse (ptype : String) (seed callIdx nTs : ℕ) : List ℚ :=
  match ptype with
  | "LIN" => (List.range nTs).map (fun i => (i : ℚ) / ((nTs : ℚ) - 1))
  | "RND" => (List.range nTs).map
      (fun i => ((randStream seed (callIdx * nTs + i) % 1000 : ℕ) : ℚ) / 1000)
  | _ => List.replicate nTs 0

/-- The r x c zero matrix np.zeros([r, c]) as a list of rows (src line 136). -/
def zerosMat (r c : ℕ) : List (List ℚ) := List.replicate r (List.replicate c 0)

/-- Overwrite column j of a row-list matrix with the given column values
(the slice assignment init_amps[:, j] = ...). -/
def setCol (m : List (List ℚ)) (j : ℕ) (col : List ℚ) : List (List ℚ) :=
  (m.zip col).map (fun p => p.1.set j p.2)

/-- Initial amplitude array (src lines 136-138): a zero matrix of shape
(n_ts, n_ctrls) whose column j is overwritten by the j-th pulse-generator
call. -/
def init_amps (ptype : String) (seed : ℕ) : List (List ℚ) :=
  (List.range n_ctrls).foldl
    (fun m j => setCol m j (genPulse ptype seed j n_ts)) (zerosMat n_ts n_ctrls)

/-- Column j of a row-list matrix. -/
def getCol (j : ℕ) (m : List (List ℚ)) : List ℚ := m.map (fun r => r.getD j 0)

/-- The external optimizer handle's wrapped fidelity functions, which the
script treats as opaque callables (src lines 151-152). -/
structure QutipLib where
  fidErrFuncWrapper : List ℚ → ℚ
  fidErrGradWrapper : List ℚ → List ℚ

/-- Bump coordinate i of a point by eps. -/
def perturb (x : List ℚ) (i : ℕ) (eps : ℚ) : List ℚ := x.set i (x.getD i 0 + eps)

/-- Forward finite-difference gradient estimate of f at x with step eps. -/
def approxFprime (f : List ℚ → ℚ) (x : List ℚ) (eps : ℚ) : List ℚ :=
  (List.range x.length).map (fun i => (f (perturb x i eps) - f x) / eps)

/-- The finite-difference step, the square root of the double-precision
machine epsilon. -/
def scipyEps : ℚ := 1 / 2 ^ 26

/-- Modelled from the spec: scipy.optimize.check_grad, missing from src.
checkGradSq is the squared normalised difference at the point: the sum over
coordinates of the squared gap between the analytic gradient and the forward
finite-difference gradient.  The scalar check_grad returns, and the script
prints, is the square root of this value. -/
def checkGradSq (f : List ℚ → ℚ) (g : List ℚ → List ℚ)
    (x : List ℚ) (eps : ℚ) : ℚ :=
  (((g x).zip (approxFprime f x eps)).map (fun p => (p.1 - p.2) ^ 2)).foldl
    (fun a b => a + b) 0

/-- The squared gradient-check discrepancy the script computes at the
flattened initial amplitudes (src lines 153-154). -/
def gradDiffSq (lib : QutipLib) (ptype : String) (seed : ℕ) : ℚ :=
  checkGradSq lib.fidErrFuncWrapper lib.fidErrGradWrapper
    ((init_amps ptype seed).flatten) scipyEps

/-- Observable effects of the script, in program order.  The constructors
assertEv and raiseEv stand for an assertion on a value and an explicitly
raised error; the script's step list contains no occurrence of either. -/
inductive Event where
  | printLine (s : String)
  | createOptimizer (dr : Mat4) (cs : List Mat4) (ini tgt : Mat4)
      (nTs evoTime : ℕ) (cfg : OptimConfig)
  | genPulseCall (j : ℕ)
  | initControls (amps : List (List ℚ))
  | saveAmps (filename : String)
  | checkGradCall (sq : ℚ)
  | printGradDiff (sq : ℚ)
  | runOptimizationCall (extraArgs : List String)
  | statsReport
  | printSummary
  | plotShow
  | assertEv (cond : Bool)
  | raiseEv (msg : String)

/-- The script's effect trace (src lines 114-197), parametrised by the opaque
library, the gradient-check flag and the ambient random seed.  The order is
the source order: banner prints, the single factory call, one pulse-generator
call per control, control initialisation, saving the initial amplitudes,
the log-gated print, the optional gradient check, the run, and reporting. -/
def scriptSteps (lib : QutipLib) (cg : Bool) (seed : ℕ) : List Event :=
  [Event.printLine ("\n***********************************"),
   Event.printLine ("Starting pulse optimisation"),
   Event.createOptimizer drift ctrls initial target_DP n_ts evo_time optimCfg]
  ++ (List.range n_ctrls).map Event.genPulseCall
  ++ [Event.initControls (init_amps p_type seed),
      Event.saveAmps pulsefile]
  ++ (if log_level ≤ logINFO then
        [Event.printLine ("Initial amplitudes output to file: " ++ pulsefile)]
      else [])
  ++ (if cg then
        [Event.printLine ("***********************************"),
         Event.printLine ("Checking gradient"),
         Event.checkGradCall (gradDiffSq lib p_type seed),
         Event.printGradDiff (gradDiffSq lib p_type seed)]
      else [])
  ++ [Event.printLine ("***********************************"),
      Event.printLine ("Starting pulse optimisation"),
      Event.runOptimizationCall [],
      Event.printLine ("***********************************"),
      Event.printLine ("\nOptimising complete. Stats follow:"),
      Event.statsReport,
      Event.printSummary,
      Event.plotShow]

/-- Does an event match the optimizer-factory call? -/
def isCreateOptEv : Event → Bool
  | Event.createOptimizer _ _ _ _ _ _ _ => true
  | _ => false

/-- Does an event match the run invocation? -/
def isRunOptEv : Event → Bool
  | Event.runOptimizationCall _ => true
  | _ => false

/-- Does an event match a pulse-generator call? -/
def isGenPulseEv : Event → Bool
  | Event.genPulseCall _ => true
  | _ => false

/-- Does an event match the gradient check? -/
def isCheckGradEv : Event → Bool
  | Event.checkGradCall _ => true
  | _ => false

/-- Does an event match the gradient-discrepancy print? -/
def isPrintGradEv : Event → Bool
  | Event.printGradDiff _ => true
  | _ => false

/-- Does an event match an assertion? -/
def isAssertEv : Event → Bool
  | Event.assertEv _ => true
  | _ => false

/-- Does an event match an explicit raise? -/
def isRaiseEv : Event → Bool
  | Event.raiseEv _ => true
  | _ => false

/-- Is the event the gradient check or the optimization run? -/
def gradCheckOrRun : Event → Bool
  | Event.checkGradCall _ => true
  | Event.runOptimizationCall _ => true
  | _ => false

/-- Run the script's steps against an environment that may fail any step.
The script installs no handler, so execution returns the already-performed
events together with the first failure, unchanged, and performs nothing
further; when nothing fails the whole step list is performed. -/
def runFrom : List Event → (Event → Option String) → List Event × Option (Event × String)
  | [], _ => ([], none)
  | e :: rest, env =>
    match env e with
    | some err => ([], some (e, err))
    | none =>
      let r := runFrom rest env
      (e :: r.1, r.2)

/-- Modelled from the spec: the result record returned by the optimizer run,
restricted to the fields the claims mention. -/
structure OptimResult where
  fid_err : ℚ
  final_amps : List ℚ

/-- Modelled from the spec: the external optimizer's run loop, missing from
src.  Starting from the initial amplitudes, each iteration asks the search
oracle for a candidate step and accepts it only when it does not increase
the fidelity error (monotone line-search descent). -/
def descend (fidErr : List ℚ → ℚ) (propose : ℕ → List ℚ → List ℚ)
    (x0 : List ℚ) : ℕ → List ℚ
  | 0 => x0
  | n + 1 =>
    let y := descend fidErr propose x0 n
    let c := propose n y
    if fidErr c ≤ fidErr y then c else y

/-- Modelled from the spec: run_optimization with all conditions fixed at
construction; the reported fid_err is the fidelity error of the amplitudes
the descent loop ends at. -/
def runOptimizationModel (fidErr : List ℚ → ℚ) (propose : ℕ → List ℚ → List ℚ)
    (x0 : List ℚ) (iters : ℕ) : OptimResult :=
  ⟨fidErr (descend fidErr propose x0 iters), descend fidErr propose x0 iters⟩

/-- A trivial concrete library instance, used to evaluate the trace theorems
at a concrete input. -/
def trivLib : QutipLib :=
  ⟨fun _ => 0, fun _ => []⟩

/-- An environment in which saving the amplitude file fails. -/
def envSaveFail : Event → Option String
  | Event.saveAmps _ => some ("IOError")
  | _ => none

/-- An environment in which the optimization run fails. -/
def envRunFail : Event → Option String
  | Event.runOptimizationCall _ => some ("ConvergenceError")
  | _ => none

/-- The events completed before the failing save in envSaveFail. -/
def trSaveFail : List Event :=
  [Event.printLine ("\n***********************************"),
   Event.printLine ("Starting pulse optimisation"),
   Event.createOptimizer drift ctrls initial target_DP n_ts evo_time optimCfg,
   Event.genPulseCall 0,
   Event.genPulseCall 1,
   Event.initControls (init_amps p_type 0)]

/-- The events completed before the failing run in envRunFail. -/
def trRunFail : List Event :=
  trSaveFail
  ++ [Event.saveAmps pulsefile,
      Event.printLine ("Initial amplitudes output to file: " ++ pulsefile),
      Event.printLine ("***********************************"),
      Event.printLine ("Checking gradient"),
      Event.checkGradCall (gradDiffSq trivLib p_type 0),
      Event.printGradDiff (gradDiffSq trivLib p_type 0),
      Event.printLine ("***********************************"),
      Event.printLine ("Starting pulse optimisation")]

/-- The events of the script before the save of the initial amplitudes. -/
def preSave (seed : ℕ) : List Event :=
  [Event.printLine ("\n***********************************"),
   Event.printLine ("Starting pulse optimisation"),
   Event.createOptimizer drift ctrls initial target_DP n_ts evo_time optimCfg,
   Event.genPulseCall 0,
   Event.genPulseCall 1,
   Event.initControls (init_amps p_type seed)]

/-- The events of the script after the save of the initial amplitudes. -/
def postSave (lib : QutipLib) (cg : Bool) (seed : ℕ) : List Event :=
  (if log_level ≤ logINFO then
     [Event.printLine ("Initial amplitudes output to file: " ++ pulsefile)]
   else [])
  ++ (if cg then
        [Event.printLine ("***********************************"),
         Event.printLine ("Checking gradient"),
         Event.checkGradCall (gradDiffSq lib p_type seed),
         Event.printGradDiff (gradDiffSq lib p_type seed)]
      else [])
  ++ [Event.printLine ("***********************************"),
      Event.printLine ("Starting pulse optimisation"),
      Event.runOptimizationCall [],
      Event.printLine ("***********************************"),
      Event.printLine ("\nOptimising complete. Stats follow:"),
      Event.statsReport,
      Event.printSummary,
      Event.plotShow]

end QtrlSpec

namespace QtrlSpec

lemma runFrom_fail_spec : ∀ (steps : List Event) (env : Event → Option String)
    (tr : List Event) (e : Event) (err : String),
    runFrom steps env = (tr, some (e, err)) →
    env e = some err ∧ (∀ x ∈ tr, env x = none) ∧
      ∃ post, steps = tr ++ e :: post := by
  intro steps
  induction steps with
  | nil => intro env tr e err h; simp [runFrom] at h
  | cons a rest ih =>
    intro env tr e err h
    rw [runFrom] at h
    cases henv : env a with
    | some err2 =>
      rw [henv] at h
      simp only [Prod.mk.injEq, Option.some.injEq] at h
      obtain ⟨htr, hae, herr⟩ := h
      subst htr; subst hae; subst herr
      refine ⟨henv, ?_, rest, rfl⟩
      intro x hx; simp at hx
    | none =>
      rw [henv] at h
      simp only [Prod.mk.injEq] at h
      obtain ⟨htr, hsnd⟩ := h
      obtain ⟨h1, h2, post, h3⟩ :=
        ih env (runFrom rest env).1 e err (by rw [← hsnd])
      refine ⟨h1, ?_, post, ?_⟩
      · intro x hx
        rw [← htr] at hx
        rcases List.mem_cons.mp hx with hxa | hxr
        · rw [hxa]; exact henv
        · exact h2 x hxr
      · rw [← htr]
        simp only [List.cons_append]
        rw [← h3]

lemma runFrom_ok_spec : ∀ (steps : List Event) (env : Event → Option String)
    (tr : List Event), runFrom steps env = (tr, none) → tr = steps := by
  intro steps
  induction steps with
  | nil => intro env tr h; simp [runFrom] at h; exact h
  | cons a rest ih =>
    intro env tr h
    rw [runFrom] at h
    cases henv : env a with
    | some err2 => rw [henv] at h; simp at h
    | none =>
      rw [henv] at h
      simp only [Prod.mk.injEq] at h
      obtain ⟨htr, hsnd⟩ := h
      have hr := ih env (runFrom rest env).1 (by rw [← hsnd])
      rw [← htr, hr]

lemma mem_left_of_append_eq : ∀ (l₁ : List Event) {l₂ tr post : List Event}
    {s e : Event}, l₁ ++ s :: l₂ = tr ++ e :: post → e ∉ l₁ → e ≠ s → s ∈ tr := by
  intro l₁
  induction l₁ with
  | nil =>
    intro l₂ tr post s e h he hes
    cases tr with
    | nil => simp at h; exact absurd h.1.symm hes
    | cons b tr2 =>
      simp at h
      rw [h.1]; exact List.mem_cons_self _ _
  | cons a l₁2 ih =>
    intro l₂ tr post s e h he hes
    cases tr with
    | nil =>
      simp at h
      exact absurd (h.1.symm ▸ List.mem_cons_self a l₁2) he
    | cons b tr2 =>
      simp at h
      have he2 : e ∉ l₁2 := fun hx => he (List.mem_cons_of_mem a hx)
      exact List.mem_cons_of_mem b (ih h.2 he2 hes)

lemma scriptSteps_decomp (lib : QutipLib) (cg : Bool) (seed : ℕ) :
    scriptSteps lib cg seed =
      preSave seed ++ Event.saveAmps pulsefile :: postSave lib cg seed := rfl

end QtrlSpec

namespace QtrlSpec

lemma K4.mul_def (x y : K4) : x * y = K4.mul x y := rfl

lemma K4.sub_def (x y : K4) : x - y = x + K4.neg y := rfl

lemma K4.add_def (x y : K4) : x + y = K4.add x y := rfl

lemma K4.neg_def (x : K4) : -x = K4.neg x := rfl

lemma K4.one_def : (1 : K4) = ⟨1, 0, 0, 0⟩ := rfl

lemma K4.zero_def : (0 : K4) = ⟨0, 0, 0, 0⟩ := rfl

lemma LC_y_entry : LC_y (0, 0) (1, 0) = K4.ofRat (-1) := by
  simp [LC_y, msmul, msub, tensor, mT, m2, Sy, Si, K4.iu, K4.ofRat,
    K4.mul_def, K4.mul, K4.sub_def, K4.add_def, K4.add, K4.neg_def, K4.neg,
    K4.one_def, K4.zero_def]

lemma LC_z_entry : LC_z (0, 0) (1, 0) = K4.ofRat 0 := by
  simp [LC_z, msmul, msub, tensor, m2, Sz, Si, K4.iu, K4.ofRat,
    K4.mul_def, K4.mul, K4.sub_def, K4.add_def, K4.add, K4.neg_def, K4.neg,
    K4.one_def, K4.zero_def]

lemma LC_x_entry : LC_x (0, 0) (1, 0) = K4.neg K4.iu := by
  simp [LC_x, msmul, msub, tensor, m2, Sx, Si, K4.iu,
    K4.mul_def, K4.mul, K4.sub_def, K4.add_def, K4.add, K4.neg_def, K4.neg,
    K4.one_def, K4.zero_def]

lemma descend_le (f : List ℚ → ℚ) (p : ℕ → List ℚ → List ℚ) (x0 : List ℚ) :
    ∀ n, f (descend f p x0 n) ≤ f x0 := by
  intro n
  induction n with
  | zero => simp [descend]
  | succ n ih =>
    rw [descend]
    split
    · exact le_trans (by assumption) ih
    · exact ih

/-- C1 (counterexample): the file the initial amplitudes are saved to is not
named by the bare pattern: the script prepends "ctrl_amps_initial_". -/
theorem c1_filename_counterexample :
    (pulsefile == "Lindblad_n_ts10_ptypeLIN.txt") = false ∧
    pulsefile = "ctrl_amps_initial_Lindblad_n_ts10_ptypeLIN.txt" := ⟨rfl, rfl⟩

/-- C1 (amended): f_ext matches the pattern exactly, and the saved file is
"ctrl_amps_initial_" followed by f_ext; the save event uses that name. -/
theorem c1_filename_amended :
    f_ext = example_name ++ "_n_ts" ++ toString n_ts ++ "_ptype" ++ p_type ++ ".txt" ∧
    f_ext = "Lindblad_n_ts10_ptypeLIN.txt" ∧
    pulsefile = "ctrl_amps_initial_" ++ f_ext ∧
    pulsefile = "ctrl_amps_initial_Lindblad_n_ts10_ptypeLIN.txt" ∧
    ∀ (lib : QutipLib) (cg : Bool) (seed : ℕ),
      Event.saveAmps pulsefile ∈ scriptSteps lib cg seed := by
  refine ⟨rfl, rfl, rfl, rfl, ?_⟩
  intro lib cg seed
  cases cg <;> simp [scriptSteps]

/-- C2: the modelled optimizer run never reports a fidelity error that is
negative or larger than the fidelity error at the initial point. -/
theorem c2_fid_err_monotone (fidErr : List ℚ → ℚ) (propose : ℕ → List ℚ → List ℚ)
    (x0 : List ℚ) (iters : ℕ) (hpos : ∀ a, 0 ≤ fidErr a) :
    0 ≤ (runOptimizationModel fidErr propose x0 iters).fid_err ∧
    (runOptimizationModel fidErr propose x0 iters).fid_err ≤ fidErr x0 :=
  ⟨hpos _, descend_le fidErr propose x0 iters⟩

/-- C2 witness at a concrete instance. -/
theorem c2_fid_err_monotone_witness :
    0 ≤ (runOptimizationModel (fun _ => 1) (fun _ x => x) [0] 5).fid_err :=
  (c2_fid_err_monotone (fun _ => 1) (fun _ x => x) [0] 5 (fun _ => by norm_num)).1

/-- C3: exactly one factory call with the script's arguments, and exactly one
run call carrying no further parameters, the run coming after the creation. -/
theorem c3_factory_once (lib : QutipLib) (cg : Bool) (seed : ℕ) :
    (scriptSteps lib cg seed).countP isCreateOptEv = 1 ∧
    (scriptSteps lib cg seed).countP isRunOptEv = 1 ∧
    optimCfg = ⟨1/1000, 1/10^20, 500, 30, "LIN", 20, true⟩ ∧
    (∃ pre mid post, scriptSteps lib cg seed =
      pre ++ Event.createOptimizer drift ctrls initial target_DP n_ts evo_time optimCfg
        :: (mid ++ Event.runOptimizationCall [] :: post)) := by
  cases cg with
  | true =>
    refine ⟨rfl, rfl, rfl,
      ⟨[Event.printLine ("\n***********************************"),
        Event.printLine ("Starting pulse optimisation")],
       [Event.genPulseCall 0, Event.genPulseCall 1,
        Event.initControls (init_amps p_type seed),
        Event.saveAmps pulsefile,
        Event.printLine ("Initial amplitudes output to file: " ++ pulsefile),
        Event.printLine ("***********************************"),
        Event.printLine ("Checking gradient"),
        Event.checkGradCall (gradDiffSq lib p_type seed),
        Event.printGradDiff (gradDiffSq lib p_type seed),
        Event.printLine ("***********************************"),
        Event.printLine ("Starting pulse optimisation")],
       [Event.printLine ("***********************************"),
        Event.printLine ("\nOptimising complete. Stats follow:"),
        Event.statsReport, Event.printSummary, Event.plotShow], rfl⟩⟩
  | false =>
    refine ⟨rfl, rfl, rfl,
      ⟨[Event.printLine ("\n***********************************"),
        Event.printLine ("Starting pulse optimisation")],
       [Event.genPulseCall 0, Event.genPulseCall 1,
        Event.initControls (init_amps p_type seed),
        Event.saveAmps pulsefile,
        Event.printLine ("Initial amplitudes output to file: " ++ pulsefile),
        Event.printLine ("***********************************"),
        Event.printLine ("Starting pulse optimisation")],
       [Event.printLine ("***********************************"),
        Event.printLine ("\nOptimising complete. Stats follow:"),
        Event.statsReport, Event.printSummary, Event.plotShow], rfl⟩⟩

/-- C4: the initial amplitude array has shape (n_ts, n_ctrls), n_ctrls is the
length of the control list, and column j is exactly the j-th pulse-generator
call's sequence of length n_ts, with no dependence between columns. -/
theorem c4_init_amps_shape (seed : ℕ) :
    (init_amps p_type seed).length = n_ts ∧
    (init_amps p_type seed).map List.length = List.replicate n_ts n_ctrls ∧
    n_ctrls = ctrls.length ∧
    (∀ j : Fin n_ctrls,
      getCol j.val (init_amps p_type seed) = genPulse p_type seed j.val n_ts) ∧
    (∀ j : Fin n_ctrls, (genPulse p_type seed j.val n_ts).length = n_ts) ∧
    (∀ (lib : QutipLib) (cg : Bool),
      (scriptSteps lib cg seed).countP isGenPulseEv = n_ctrls) := by
  refine ⟨rfl, rfl, rfl, ?_, ?_, ?_⟩
  · intro j; fin_cases j <;> rfl
  · intro j; fin_cases j <;> rfl
  · intro lib cg; cases cg <;> rfl

/-- C5: with the flag set the script performs the gradient check at the
flattened initial amplitudes and prints the discrepancy; its steps contain no
assertion and no raise, and with the flag unset no gradient check occurs. -/
theorem c5_gradient_check_only_prints (lib : QutipLib) (seed : ℕ) :
    Event.checkGradCall (gradDiffSq lib p_type seed) ∈ scriptSteps lib true seed ∧
    Event.printGradDiff (gradDiffSq lib p_type seed) ∈ scriptSteps lib true seed ∧
    (scriptSteps lib true seed).countP isAssertEv = 0 ∧
    (scriptSteps lib true seed).countP isRaiseEv = 0 ∧
    (scriptSteps lib false seed).countP isCheckGradEv = 0 ∧
    (scriptSteps lib false seed).countP isPrintGradEv = 0 ∧
    (scriptSteps lib false seed).countP isAssertEv = 0 := by
  refine ⟨?_, ?_, rfl, rfl, rfl, rfl, rfl⟩ <;> simp [scriptSteps]

/-- C6: the target operator is the tensor product of two single-qubit
Hadamard transforms, hence entrywise the explicit rational matrix with
entries plus-minus one half. -/
theorem c6_target_hadamard :
    target_DP = tensor had_gate had_gate ∧ target_DP = targetHH := by
  refine ⟨rfl, ?_⟩
  funext i j
  rcases i with ⟨i1, i2⟩
  rcases j with ⟨j1, j2⟩
  fin_cases i1 <;> fin_cases i2 <;> fin_cases j1 <;> fin_cases j2 <;>
    simp [target_DP, targetHH, tensor, had_gate, m2smul, m2, hadSign, K4.ofRat,
      K4.mul_def, K4.mul, K4.neg_def, K4.neg, K4.one_def, K4.zero_def] <;> norm_num

lemma genPulse_lin (seed callIdx nTs : ℕ) :
    genPulse p_type seed callIdx nTs =
      (List.range nTs).map (fun i => (i : ℚ) / ((nTs : ℚ) - 1)) := rfl

lemma init_amps_lin_seed (s₁ s₂ : ℕ) : init_amps p_type s₁ = init_amps p_type s₂ := by
  simp only [init_amps, genPulse_lin]

lemma gradDiffSq_lin_seed (lib : QutipLib) (s₁ s₂ : ℕ) :
    gradDiffSq lib p_type s₁ = gradDiffSq lib p_type s₂ := by
  simp only [gradDiffSq, init_amps_lin_seed s₁ s₂]

/-- C7: with the LIN pulse type the gradient-check discrepancy, and indeed the
whole effect trace, is the same for any two ambient random seeds: the
computation is reproducible across runs. -/
theorem c7_deterministic (lib : QutipLib) (s₁ s₂ : ℕ) :
    gradDiffSq lib p_type s₁ = gradDiffSq lib p_type s₂ ∧
    init_amps p_type s₁ = init_amps p_type s₂ ∧
    scriptSteps lib true s₁ = scriptSteps lib true s₂ := by
  refine ⟨gradDiffSq_lin_seed lib s₁ s₂, init_amps_lin_seed s₁ s₂, ?_⟩
  simp only [scriptSteps]
  rw [init_amps_lin_seed s₁ s₂, gradDiffSq_lin_seed lib s₁ s₂]

/-- C8: the script installs no handler: a run either performs every step, or
stops at the first failing step and reports that step's error unchanged, all
earlier steps having succeeded and nothing after having run. -/
theorem c8_no_exception_handling (lib : QutipLib) (cg : Bool) (seed : ℕ)
    (env : Event → Option String) (tr : List Event) (e : Event) (err : String)
    (hrun : runFrom (scriptSteps lib cg seed) env = (tr, some (e, err))) :
    env e = some err ∧ (∀ x ∈ tr, env x = none) ∧
      ∃ post, scriptSteps lib cg seed = tr ++ e :: post :=
  runFrom_fail_spec (scriptSteps lib cg seed) env tr e err hrun

/-- C8 witness: a concrete run in which saving the amplitude file fails. -/
theorem c8_no_exception_handling_witness :
    envSaveFail (Event.saveAmps pulsefile) = some ("IOError") :=
  (c8_no_exception_handling trivLib true 0 envSaveFail trSaveFail
    (Event.saveAmps pulsefile) "IOError" rfl).1

/-- C10: if the failing step is the gradient check or the optimization run,
the save of the initial amplitudes is among the already-performed steps. -/
theorem c10_save_precedes_check_and_run (lib : QutipLib) (seed : ℕ)
    (env : Event → Option String) (tr : List Event) (e : Event) (err : String)
    (hrun : runFrom (scriptSteps lib true seed) env = (tr, some (e, err)))
    (he : gradCheckOrRun e = true) :
    Event.saveAmps pulsefile ∈ tr := by
  obtain ⟨h1, h2, post, h3⟩ := runFrom_fail_spec _ env tr e err hrun
  rw [scriptSteps_decomp] at h3
  have hne : e ∉ preSave seed ∧ e ≠ Event.saveAmps pulsefile := by
    cases e <;> simp [gradCheckOrRun] at he <;> constructor <;> simp [preSave]
  exact mem_left_of_append_eq (preSave seed) h3 hne.1 hne.2

/-- C10 witness: a concrete run failing at the optimization run, with the
save already performed. -/
theorem c10_save_precedes_check_and_run_witness :
    Event.saveAmps pulsefile ∈ trRunFail :=
  c10_save_precedes_check_and_run trivLib 0 envRunFail trRunFail
    (Event.runOptimizationCall []) "ConvergenceError" rfl rfl

/-- C9: the control list handed to the optimizer is exactly [LC_z, LC_x], so
there are two control channels, and LC_y is not among them. -/
theorem c9_two_controls_no_LCy :
    ctrls = [LC_z, LC_x] ∧ n_ctrls = 2 ∧ LC_y ∉ ctrls ∧
    ∀ (lib : QutipLib) (cg : Bool) (seed : ℕ),
      Event.createOptimizer drift ctrls initial target_DP n_ts evo_time optimCfg
        ∈ scriptSteps lib cg seed := by
  refine ⟨rfl, rfl, ?_, ?_⟩
  · intro hmem
    have h : LC_y = LC_z ∨ LC_y = LC_x := by simpa [ctrls] using hmem
    rcases h with h | h
    · have he := congrFun (congrFun h (0, 0)) (1, 0)
      rw [LC_y_entry, LC_z_entry] at he
      have hre := congrArg K4.re he
      norm_num [K4.ofRat] at hre
    · have he := congrFun (congrFun h (0, 0)) (1, 0)
      rw [LC_y_entry, LC_x_entry] at he
      have hre := congrArg K4.re he
      norm_num [K4.ofRat, K4.neg, K4.iu] at hre
  · intro lib cg seed
    cases cg <;> simp [scriptSteps]

end QtrlSpec
